import Mathlib

/-!
Shallow embedding of the authentication / authorization core of the
Student_panel_backend repository (Express + Mongoose), and proofs of the
spec claims about it.

Conventions of the embedding:
* MongoDB ObjectIds, timestamps and TTLs are natural numbers.
* bcrypt is modelled as an ideal salted hash: `bcryptHash` remembers the
  salt and the plaintext, `bcryptCompare` checks the plaintext.  This keeps
  "hash equality" and "re-hash" observable (a re-hash with a fresh salt
  yields a structurally different hash).
* A JWT is modelled as a record `{id, iat, exp, secret}`; possession of the
  correct secret stands for a valid signature, structural equality stands
  for string equality of the serialized token (as used by
  `user.refreshToken !== refreshToken` in `routes/auth.js`).
* `jsonwebtoken` rejects a token as expired when the clock is at or past
  `exp`, which `jwtVerify` mirrors.
* Request handlers are translated as pure functions from the database
  state (plus the nondeterministic inputs: current time, fresh ids, fresh
  bcrypt salts) to a response value and the new database state.  Express
  middleware chains are translated as functions returning either a denial
  response or permission to continue.
* The express-validator input-validation preludes of the handlers are not
  part of the translated bodies: every claim below is about post-validation
  behaviour (the cited source line ranges all lie after the validation
  blocks).
-/

namespace StudentPanel

/-- Roles of `models/User.js` (`enum: ['super_admin', 'school_admin']`). -/
inductive Role where
  | super_admin
  | school_admin
deriving DecidableEq, Repr

/-- Ideal model of a bcrypt hash: the salt and the hashed plaintext. -/
structure BHash where
  salt : Nat
  plain : String
deriving DecidableEq, Repr

/-- `bcrypt.hash(plain, salt)`. -/
def bcryptHash (salt : Nat) (plain : String) : BHash := ⟨salt, plain⟩

/-- `bcrypt.compare(entered, hash)`. -/
def bcryptCompare (entered : String) (h : BHash) : Bool := entered == h.plain

/-- A signed JWT: payload `{id}`, issued-at, expiry, and the signing
secret (possession of the matching secret models a valid signature). -/
structure Token where
  id : Nat
  iat : Nat
  exp : Nat
  secret : String
deriving DecidableEq, Repr

/-- `jwt.sign({id}, secret, {expiresIn: ttl})` at time `now`. -/
def jwtSign (id : Nat) (secret : String) (ttl : Nat) (now : Nat) : Token :=
  ⟨id, now, now + ttl, secret⟩

/-- The two `jwt.verify` failure modes used by the handlers. -/
inductive JwtError where
  | malformed
  | expired
deriving DecidableEq, Repr

/-- `jwt.verify(token, secret)` at time `now`: signature check, then
expiry check (`jsonwebtoken` fails once the clock reaches `exp`). -/
def jwtVerify (t : Token) (secret : String) (now : Nat) : Except JwtError Nat :=
  if t.secret ≠ secret then .error .malformed
  else if t.exp ≤ now then .error .expired
  else .ok t.id

/-- Canonical user record (`models/User.js`).  `password` holds the bcrypt
hash; `schoolId` is the tenant reference, absent until onboarding. -/
structure User where
  id : Nat
  name : String
  email : String
  password : BHash
  role : Role
  schoolId : Option Nat
  isActive : Bool
  refreshToken : Option Token
  lastLogin : Nat
deriving DecidableEq, Repr

/-- A legacy identity record (`models/Admin.js` and
`models/SchoolAdmin.js` have the same shape:
`{name?, email, password (bcrypt hash), isDeleted}`). -/
structure LegacyRecord where
  name : Option String
  email : String
  password : BHash
  isDeleted : Bool
deriving DecidableEq, Repr

/-- A school (`models/School.js`), restricted to the fields the verified
handlers touch; `adminContact`, `address`, `website` and `description` are
elided because no claim depends on them. -/
structure School where
  id : Nat
  name : String
  board : String
  status : String
deriving DecidableEq, Repr

/-- The MongoDB state: the canonical `users` collection, the two legacy
collections (`admins`, `school_admins`), and `schools`. -/
structure Db where
  users : List User
  admins : List LegacyRecord
  schoolAdmins : List LegacyRecord
  schools : List School
deriving DecidableEq, Repr

/-- The environment configuration the handlers read. -/
structure Env where
  jwtSecret : String
  jwtRefreshSecret : String
  jwtExpiresIn : Nat
  jwtRefreshExpiresIn : Nat
  superAdminEmail : Option String
  superAdminPassword : Option String
deriving DecidableEq, Repr

/-- `user.getSignedJwtToken()` (`models/User.js`). -/
def getSignedJwtToken (env : Env) (u : User) (now : Nat) : Token :=
  jwtSign u.id env.jwtSecret env.jwtExpiresIn now

/-- `user.getRefreshToken()` (`models/User.js`). -/
def getRefreshToken (env : Env) (u : User) (now : Nat) : Token :=
  jwtSign u.id env.jwtRefreshSecret env.jwtRefreshExpiresIn now

/-- `await user.save()` on an already-persisted document: replace the
record with the same `_id`. -/
def saveUser (db : Db) (u : User) : Db :=
  { db with users := db.users.map (fun v => if v.id == u.id then u else v) }

/-- Public projection of a user sent back by the auth handlers
(`{id, name, email, role, schoolId}`). -/
structure UserView where
  id : Nat
  name : String
  email : String
  role : Role
  schoolId : Option Nat
deriving DecidableEq, Repr

def userView (u : User) : UserView :=
  ⟨u.id, u.name, u.email, u.role, u.schoolId⟩

/-- A JSON error response body `{status, success, message}`. -/
structure Resp where
  status : Nat
  success : Bool
  message : String
deriving DecidableEq, Repr

/-! ### Middleware (`middleware/auth.js` and `middleware/roleAuth.js`) -/

/-- Outcome of a middleware gate: `next()` or an early response with a
status code and a `message` field. -/
inductive Gate where
  | next
  | deny (status : Nat) (message : String)
deriving DecidableEq, Repr

/-- `protect` (`middleware/auth.js`): extract the bearer token, verify it
with `JWT_SECRET`, load the user by the decoded id.  The header is
modelled as `Option Token` (absent, or a well-formed `Bearer` token; a
syntactically broken header string fails `jwt.verify` and is covered by
the `.error` branch).  Note the source checks only that the user exists —
`isActive` is not consulted here. -/
def protect (env : Env) (db : Db) (header : Option Token) (now : Nat) :
    Except Resp User :=
  match header with
  | none => .error ⟨401, false, "Not authorized, no token"⟩
  | some t =>
    match jwtVerify t env.jwtSecret now with
    | .error _ => .error ⟨401, false, "Not authorized, token failed"⟩
    | .ok uid =>
      match db.users.find? (fun v => v.id == uid) with
      | none => .error ⟨401, false, "User not found"⟩
      | some u => .ok u

/-- `canAccessSchool` (`middleware/roleAuth.js`): `schoolIdParam` models
`req.params.schoolId || req.body.schoolId || req.query.schoolId` (as a
parsed ObjectId; the source compares the request string with
`req.user.schoolId.toString()`). -/
def canAccessSchool (user : Option User) (schoolIdParam : Option Nat) : Gate :=
  match user with
  | none => .deny 401 "Authentication required"
  | some u =>
    if u.role = .super_admin then .next
    else if u.role = .school_admin then
      match u.schoolId with
      | none => .deny 403 "School admin not associated with any school"
      | some own =>
        match schoolIdParam with
        | some sid =>
          if sid ≠ own then
            .deny 403 "Access denied. You can only access your own school data."
          else .next
        | none => .next
    else .deny 403 "Access denied. Insufficient privileges."

/-- `canPerformCRUD` (`middleware/roleAuth.js`): only `super_admin` may
mutate.  The source reads no configuration flag: the
`ENABLE_CRUD_FOR_SCHOOL_ADMIN` environment variable documented in the
README is never consulted anywhere in the code base. -/
def canPerformCRUD (user : Option User) : Gate :=
  match user with
  | none => .deny 401 "Authentication required"
  | some u =>
    if u.role ≠ .super_admin then
      .deny 403 "Access denied. CRUD operations are restricted to super admins only."
    else .next

/-- `canViewData` (`middleware/roleAuth.js`). -/
def canViewData (user : Option User) : Gate :=
  match user with
  | none => .deny 401 "Authentication required"
  | some u =>
    if u.role = .super_admin ∨ u.role = .school_admin then .next
    else .deny 403 "Access denied. Insufficient privileges to view data."

/-- The tenant filter `routes/students.js` `GET /` installs on the Mongo
query (lines 19-23): a school admin is always restricted to their own
school; otherwise an explicit `schoolId` query parameter is honoured. -/
def studentsListSchoolFilter (u : User) (schoolIdQuery : Option Nat) : Option Nat :=
  if u.role = .school_admin then u.schoolId
  else schoolIdQuery

/-! ### Login (`routes/auth.js`, `POST /login`) -/

/-- Result of the login handler: either an error response or
`200 {token, refreshToken, user}`. -/
inductive LoginOut where
  | fail (r : Resp)
  | ok (token : Token) (refreshToken : Token) (user : UserView)
deriving DecidableEq, Repr

/-- The guard of the env single-super-admin branch:
`process.env.SUPER_ADMIN_EMAIL && process.env.SUPER_ADMIN_PASSWORD &&
email === ... && password === ...`. -/
def envSuperAdminMatch (env : Env) (email password : String) : Bool :=
  match env.superAdminEmail, env.superAdminPassword with
  | some se, some sp => email == se && password == sp
  | _, _ => false

/-- `User.findOneAndUpdate({email}, fields, {upsert, new,
setDefaultsOnInsert})` as used by the login materialization paths: the
update document always carries `{name, email, password, role,
isActive: true}`.  `findOneAndUpdate` bypasses the `pre('save')` bcrypt
hook, so the supplied hash is stored verbatim.  `freshId` is the id Mongo
assigns on insert. -/
def upsertUserByEmail (db : Db) (freshId : Nat) (email name : String)
    (password : BHash) (role : Role) (now : Nat) : User × Db :=
  match db.users.find? (fun v => v.email == email) with
  | some u =>
    let u' : User := { u with name := name, password := password,
                              role := role, isActive := true }
    (u', saveUser db u')
  | none =>
    let u' : User := ⟨freshId, name, email, password, role, none, true, none, now⟩
    (u', { db with users := db.users ++ [u'] })

/-- The tail of a successful login: `updateLastLogin`, token issuance,
storing the refresh token, and the `200` payload. -/
def loginFinish (env : Env) (db : Db) (u : User) (now : Nat) : LoginOut × Db :=
  let u1 : User := { u with lastLogin := now }
  let db1 := saveUser db u1
  let token := getSignedJwtToken env u1 now
  let rt := getRefreshToken env u1 now
  let u2 : User := { u1 with refreshToken := some rt }
  (.ok token rt (userView u2), saveUser db1 u2)

/-- `POST /login` (`routes/auth.js` lines 109-187), after input
validation.  `salt` is the fresh bcrypt salt the env-super-admin branch
would use; `freshId` is the id a materializing upsert would assign. -/
def login (env : Env) (db : Db) (email password : String)
    (now salt freshId : Nat) : LoginOut × Db :=
  if envSuperAdminMatch env email password then
    let hashed := bcryptHash salt password
    let (mirror, db1) :=
      upsertUserByEmail db freshId email "Super Admin" hashed .super_admin now
    let token := getSignedJwtToken env mirror now
    let rt := getRefreshToken env mirror now
    let mirror' : User := { mirror with refreshToken := some rt }
    (.ok token rt (userView mirror'), saveUser db1 mirror')
  else
    match db.users.find? (fun v => v.email == email) with
    | some u =>
      if !u.isActive then (.fail ⟨401, false, "Account is deactivated"⟩, db)
      else if !bcryptCompare password u.password then
        (.fail ⟨401, false, "Invalid credentials"⟩, db)
      else loginFinish env db u now
    | none =>
      match db.admins.find? (fun r => r.email == email && !r.isDeleted) with
      | some a =>
        if !bcryptCompare password a.password then
          (.fail ⟨401, false, "Invalid credentials"⟩, db)
        else
          let (u, db1) :=
            upsertUserByEmail db freshId a.email (a.name.getD "Admin")
              a.password .super_admin now
          loginFinish env db1 u now
      | none =>
        match db.schoolAdmins.find? (fun r => r.email == email && !r.isDeleted) with
        | some a =>
          if !bcryptCompare password a.password then
            (.fail ⟨401, false, "Invalid credentials"⟩, db)
          else
            let (u, db1) :=
              upsertUserByEmail db freshId a.email (a.name.getD "School Admin")
                a.password .school_admin now
            loginFinish env db1 u now
        | none => (.fail ⟨401, false, "Invalid credentials"⟩, db)

/-! ### Register (`routes/auth.js`, `POST /register`) -/

/-- Target store of a registration (`body('target').isIn(['users','admins'])`). -/
inductive Target where
  | users
  | admins
deriving DecidableEq, Repr

/-- Result of the register handler. -/
inductive RegisterOut where
  | fail (r : Resp)
  | created (token : Token) (refreshToken : Token) (user : UserView)
deriving DecidableEq, Repr

/-- `User.create({name, email, password, role})`: the `pre('save')` hook
bcrypt-hashes the password; the unique index on `email` rejects the
insert when a canonical record with this email already exists (surfacing
as a thrown duplicate-key error). -/
def userCreate (db : Db) (freshId salt : Nat) (name email password : String)
    (role : Role) (now : Nat) : Except Unit (User × Db) :=
  match db.users.find? (fun v => v.email == email) with
  | some _ => .error ()
  | none =>
    let u : User := ⟨freshId, name, email, bcryptHash salt password, role,
                     none, true, none, now⟩
    .ok (u, { db with users := db.users ++ [u] })

/-- The tail of a successful registration: token issuance, storing the
refresh token, and the `201` payload. -/
def registerFinish (env : Env) (db : Db) (u : User) (now : Nat) :
    RegisterOut × Db :=
  let token := getSignedJwtToken env u now
  let rt := getRefreshToken env u now
  let u' : User := { u with refreshToken := some rt }
  (.created token rt (userView u'), saveUser db u')

/-- `POST /register` (`routes/auth.js` lines 13-55), after input
validation.  `roleOpt`/`targetOpt` model the destructuring defaults
`role = 'school_admin'`, `target = 'users'`.  Any error thrown by a
store write (such as the duplicate-key rejection of `User.create`) is
caught by the handler's `catch` and answered with `500 Server error`,
leaving the stores unchanged. -/
def register (env : Env) (db : Db) (freshId salt : Nat)
    (name email password : String) (roleOpt : Option Role)
    (targetOpt : Option Target) (now : Nat) : RegisterOut × Db :=
  let role := roleOpt.getD .school_admin
  let target := targetOpt.getD .users
  match target with
  | .admins =>
    match db.admins.find? (fun r => r.email == email) with
    | some _ => (.fail ⟨400, false, "Email already registered (admins)"⟩, db)
    | none =>
      match userCreate db freshId salt name email password role now with
      | .error _ => (.fail ⟨500, false, "Server error"⟩, db)
      | .ok (temp, db1) =>
        let db2 := { db1 with
          admins := db1.admins ++ [⟨some name, email, temp.password, false⟩] }
        registerFinish env db2 temp now
  | .users =>
    match db.users.find? (fun v => v.email == email) with
    | some _ => (.fail ⟨400, false, "Email already registered"⟩, db)
    | none =>
      match userCreate db freshId salt name email password role now with
      | .error _ => (.fail ⟨500, false, "Server error"⟩, db)
      | .ok (u, db1) => registerFinish env db1 u now

/-! ### Refresh (`routes/auth.js`, `POST /refresh`, lines 214-275; the
second `/refresh` registration after `export default` is shadowed by this
one and never reached) -/

/-- Result of the refresh handler. -/
inductive RefreshOut where
  | fail (r : Resp)
  | ok (token : Token) (refreshToken : Token)
deriving DecidableEq, Repr

/-- `POST /refresh`: verify the presented token with
`JWT_REFRESH_SECRET` (a `JsonWebTokenError` maps to
`401 Invalid refresh token`, a `TokenExpiredError` to
`401 Refresh token expired`), load the user by the decoded id, and honour
the token only if it exactly equals the stored `refreshToken`; on
success rotate by overwriting the stored token. -/
def refresh (env : Env) (db : Db) (rt : Token) (now : Nat) : RefreshOut × Db :=
  match jwtVerify rt env.jwtRefreshSecret now with
  | .error .malformed => (.fail ⟨401, false, "Invalid refresh token"⟩, db)
  | .error .expired => (.fail ⟨401, false, "Refresh token expired"⟩, db)
  | .ok uid =>
    match db.users.find? (fun v => v.id == uid) with
    | none => (.fail ⟨401, false, "Invalid refresh token"⟩, db)
    | some u =>
      if u.refreshToken ≠ some rt then
        (.fail ⟨401, false, "Invalid refresh token"⟩, db)
      else
        let newToken := getSignedJwtToken env u now
        let newRt := getRefreshToken env u now
        let u' : User := { u with refreshToken := some newRt }
        (.ok newToken newRt, saveUser db u')

/-! ### Onboarding (`routes/auth.js`, `POST /onboarding`) -/

/-- Result of the onboarding handler. -/
inductive OnboardOut where
  | fail (r : Resp)
  | ok (user : UserView)
deriving DecidableEq, Repr

/-- The board whitelist of the onboarding handler. -/
def allowedBoards : List String :=
  ["CBSE", "ICSE", "State Board", "IB", "Cambridge", "Other"]

/-- JavaScript `String.prototype.trim()`: strip leading and trailing
whitespace (modelled over the character list so it evaluates). -/
def jsTrim (s : String) : String :=
  String.mk (((s.toList.dropWhile Char.isWhitespace).reverse.dropWhile
    Char.isWhitespace).reverse)

/-- `School.create(...)`: the unique index on `name` rejects a duplicate
school name (surfacing as a thrown error). -/
def schoolCreate (db : Db) (freshSchoolId : Nat) (name board : String) :
    Except Unit (School × Db) :=
  match db.schools.find? (fun s => s.name == name) with
  | some _ => .error ()
  | none =>
    let s : School := ⟨freshSchoolId, name, board, "active"⟩
    .ok (s, { db with schools := db.schools ++ [s] })

/-- `POST /onboarding` (`routes/auth.js` lines 58-106), after `protect`
and input validation; `u` is the authenticated user (`req.user`).  The
handler always creates a fresh school and assigns its id to
`user.schoolId`, overwriting any previously set school; the
`adminContact` sanitization only feeds fields of `School` elided from
this model.  A store error is answered with `500 Server error`. -/
def onboarding (db : Db) (u : User) (freshSchoolId : Nat)
    (schoolName board adminName : String) : OnboardOut × Db :=
  let safeBoard := if allowedBoards.contains board then board else "Other"
  match schoolCreate db freshSchoolId schoolName safeBoard with
  | .error _ => (.fail ⟨500, false, "Server error"⟩, db)
  | .ok (school, db1) =>
    match db1.users.find? (fun v => v.id == u.id) with
    | none => (.fail ⟨500, false, "Server error"⟩, db1)
    | some user =>
      let user' : User := { user with
        schoolId := some school.id,
        name := if (jsTrim adminName).length > 0 then jsTrim adminName
                else user.name }
      (.ok (userView user'), saveUser db1 user')

/-! ### Helper lemmas about the list-backed store -/

/-- Searching an appended list when nothing in the prefix matches. -/
theorem find?_append_of_none {α} (l1 l2 : List α) (p : α → Bool)
    (h : l1.find? p = none) : (l1 ++ l2).find? p = l2.find? p := by
  simp [List.find?_append, h]

/-- A `saveUser`-style replacement keyed on an id absent from the list
leaves the list unchanged. -/
theorem map_replace_fresh (l : List User) (k : Nat) (u' : User)
    (h : ∀ v ∈ l, v.id ≠ k) :
    l.map (fun v => if v.id == k then u' else v) = l := by
  have := List.map_congr_left (l := l)
    (f := fun v => if v.id == k then u' else v) (g := fun v => v)
    (fun v hv => by simp [h v hv])
  simpa using this

/-- After replacing the record found by id, a lookup for that id finds
the replacement. -/
theorem find?_map_replace (l : List User) (u u' : User) (k m : Nat)
    (h : l.find? (fun v => v.id == k) = some u)
    (hm : m = u.id) (hid : u'.id = u.id) :
    (l.map (fun v => if v.id == m then u' else v)).find?
        (fun v => v.id == k) = some u' := by
  have hpf : ((fun v => v.id == k) ∘ (fun v => if v.id == m then u' else v))
      = fun v => v.id == k := by
    funext v
    by_cases hv : (v.id == m) = true
    · have hv' : v.id = m := by simpa using hv
      simp [Function.comp, hv, hv', hm, hid]
    · simp [Function.comp, hv]
  rw [List.find?_map, hpf, h]
  simp [hm]

/-- A successful `jwtVerify` yields the id carried by the token. -/
theorem jwtVerify_ok_id (t : Token) (s : String) (now uid : Nat)
    (h : jwtVerify t s now = .ok uid) : uid = t.id := by
  unfold jwtVerify at h
  split at h
  · exact absurd h (by simp)
  · split at h
    · exact absurd h (by simp)
    · have := h
      simp at this
      exact this.symm

/-! ### Claims -/

/-- C1: a `school_admin` whose `schoolId` is `T1` is denied with the
wrong-tenant error when requesting school `T2 ≠ T1`, and is allowed with
the downstream tenant filter equal to `T1` when no school is named. -/
theorem c1_school_admin_tenant_scoping (u : User) (t1 t2 : Nat)
    (hrole : u.role = .school_admin) (hsid : u.schoolId = some t1)
    (hne : t2 ≠ t1) :
    canAccessSchool (some u) (some t2)
        = .deny 403 "Access denied. You can only access your own school data."
      ∧ canAccessSchool (some u) none = .next
      ∧ studentsListSchoolFilter u none = some t1 := by
  simp [canAccessSchool, studentsListSchoolFilter, hrole, hsid, hne]

def c1User : User :=
  ⟨1, "A", "a@x.com", bcryptHash 0 "secret1", .school_admin, some 7, true, none, 0⟩

/-- Witness for C1 at a concrete school admin of tenant 7 requesting
tenant 8. -/
theorem c1_school_admin_tenant_scoping_witness :
    c1User.role = .school_admin ∧ c1User.schoolId = some 7 ∧ (8 : Nat) ≠ 7 ∧
      (canAccessSchool (some c1User) (some 8)
          = .deny 403 "Access denied. You can only access your own school data."
        ∧ canAccessSchool (some c1User) none = .next
        ∧ studentsListSchoolFilter c1User none = some 7) :=
  ⟨rfl, rfl, by decide,
    c1_school_admin_tenant_scoping c1User 7 8 rfl rfl (by decide)⟩

/-- C3: `canPerformCRUD` denies every `school_admin` with the
role-insufficient 403, unconditionally — the source consults no
configuration flag, so the documented `ENABLE_CRUD_FOR_SCHOOL_ADMIN`
escape hatch has no effect (code bug relative to the claim). -/
theorem c3_canPerformCRUD_denies_school_admin (u : User)
    (hrole : u.role = .school_admin) :
    canPerformCRUD (some u)
      = .deny 403
          "Access denied. CRUD operations are restricted to super admins only." := by
  simp [canPerformCRUD, hrole]

def c3User : User :=
  ⟨2, "S", "s@x.com", bcryptHash 0 "secret1", .school_admin, some 7, true, none, 0⟩

/-- Witness for C3 at a concrete school admin. -/
theorem c3_canPerformCRUD_denies_school_admin_witness :
    c3User.role = .school_admin ∧
      canPerformCRUD (some c3User)
        = .deny 403
            "Access denied. CRUD operations are restricted to super admins only." :=
  ⟨rfl, c3_canPerformCRUD_denies_school_admin c3User rfl⟩

/-- C9: verifying an access token right after issuance yields the
issuing identity's id; verifying it once the TTL has elapsed fails with
the expired error. -/
theorem c9_access_token_roundtrip_and_expiry (env : Env) (u : User)
    (now later : Nat) (httl : 0 < env.jwtExpiresIn)
    (hlater : now + env.jwtExpiresIn ≤ later) :
    jwtVerify (getSignedJwtToken env u now) env.jwtSecret now = .ok u.id
      ∧ jwtVerify (getSignedJwtToken env u now) env.jwtSecret later
          = .error .expired := by
  constructor
  · simp [getSignedJwtToken, jwtSign, jwtVerify]
    omega
  · simp [getSignedJwtToken, jwtSign, jwtVerify, hlater]

def c9Env : Env := ⟨"acc-secret", "ref-secret", 7, 30, none, none⟩

def c9User : User :=
  ⟨3, "T", "t@x.com", bcryptHash 0 "secret1", .super_admin, none, true, none, 0⟩

/-- Witness for C9 with a 7-tick TTL, verified at issuance time 5 and
again at time 12 = 5 + TTL. -/
theorem c9_access_token_roundtrip_and_expiry_witness :
    0 < c9Env.jwtExpiresIn ∧ 5 + c9Env.jwtExpiresIn ≤ 12 ∧
      (jwtVerify (getSignedJwtToken c9Env c9User 5) c9Env.jwtSecret 5
          = .ok c9User.id
        ∧ jwtVerify (getSignedJwtToken c9Env c9User 5) c9Env.jwtSecret 12
            = .error .expired) :=
  ⟨by decide, by decide,
    c9_access_token_roundtrip_and_expiry c9Env c9User 5 12 (by decide) (by decide)⟩

def c2InactiveUser : User :=
  ⟨1, "Inactive", "i@x.com", bcryptHash 0 "secret1", .school_admin, none,
    false, none, 0⟩

def c2Env : Env := ⟨"acc-secret", "ref-secret", 7, 30, none, none⟩

def c2Db : Db := ⟨[c2InactiveUser], [], [], []⟩

/-- C2 counterexample: a deactivated user (`isActive = false`) bearing a
valid, unexpired access token passes the `protect` gate — the handler
runs with the inactive identity, contradicting the claim that the gate
fails on `isActive = false`. -/
theorem c2_counterexample_inactive_passes_gate :
    c2InactiveUser.isActive = false ∧
      protect c2Env c2Db
          (some (jwtSign c2InactiveUser.id c2Env.jwtSecret c2Env.jwtExpiresIn 0)) 0
        = .ok c2InactiveUser := by
  constructor
  · rfl
  · rfl

/-- C2 amended: for a request bearing a well-signed, unexpired access
token, the gate fails authentication (with the 401 user-not-found
response, so the handler never runs) exactly when the referenced
identity no longer exists; the `isActive` flag is not checked by the
gate. -/
theorem c2_gate_rejects_missing_identity (env : Env) (db : Db) (t : Token)
    (now : Nat) (hsec : t.secret = env.jwtSecret) (hexp : now < t.exp)
    (hgone : db.users.find? (fun v => v.id == t.id) = none) :
    protect env db (some t) now = .error ⟨401, false, "User not found"⟩ := by
  have h2 : ¬ (t.exp ≤ now) := by omega
  simp [protect, jwtVerify, hsec, h2, hgone]

def c2GoneEnv : Env := ⟨"acc-secret", "ref-secret", 7, 30, none, none⟩

/-- Witness for C2 (amended) at a valid token for identity 9 in an empty
store. -/
theorem c2_gate_rejects_missing_identity_witness :
    (jwtSign 9 "acc-secret" 7 0).secret = c2GoneEnv.jwtSecret ∧
      (0 : Nat) < (jwtSign 9 "acc-secret" 7 0).exp ∧
      protect c2GoneEnv ⟨[], [], [], []⟩ (some (jwtSign 9 "acc-secret" 7 0)) 0
        = .error ⟨401, false, "User not found"⟩ :=
  ⟨rfl, by decide,
    c2_gate_rejects_missing_identity c2GoneEnv ⟨[], [], [], []⟩
      (jwtSign 9 "acc-secret" 7 0) 0 rfl (by decide) rfl⟩

/-- C10: the unauthenticated register route takes `role` straight from
the request body: with a fresh email and `role = super_admin` it creates
a canonical identity whose role is `super_admin`, and with `role`
omitted the created identity's role defaults to `school_admin`.
(`register` takes no authenticated identity at all: the route mounts no
`protect` middleware.) -/
theorem c10_register_accepts_role_from_body (env : Env) (db : Db)
    (freshId salt : Nat) (name email password : String) (now : Nat)
    (hfresh : db.users.find? (fun v => v.email == email) = none) :
    ((register env db freshId salt name email password
          (some .super_admin) none now).1
        = .created (jwtSign freshId env.jwtSecret env.jwtExpiresIn now)
            (jwtSign freshId env.jwtRefreshSecret env.jwtRefreshExpiresIn now)
            ⟨freshId, name, email, .super_admin, none⟩)
      ∧ ((register env db freshId salt name email password none none now).1
        = .created (jwtSign freshId env.jwtSecret env.jwtExpiresIn now)
            (jwtSign freshId env.jwtRefreshSecret env.jwtRefreshExpiresIn now)
            ⟨freshId, name, email, .school_admin, none⟩) := by
  constructor <;>
    simp [register, userCreate, registerFinish, getSignedJwtToken,
      getRefreshToken, userView, hfresh]

/-- Witness for C10: registering `m@x.com` into an empty store. -/
theorem c10_register_accepts_role_from_body_witness :
    ((⟨[], [], [], []⟩ : Db).users.find? (fun v => v.email == "m@x.com") = none)
      ∧ ((register ⟨"a", "r", 7, 30, none, none⟩ ⟨[], [], [], []⟩ 1 2 "M" "m@x.com"
            "secret1" (some .super_admin) none 0).1
          = .created (jwtSign 1 "a" 7 0) (jwtSign 1 "r" 30 0)
              ⟨1, "M", "m@x.com", .super_admin, none⟩)
      ∧ ((register ⟨"a", "r", 7, 30, none, none⟩ ⟨[], [], [], []⟩ 1 2 "M" "m@x.com"
            "secret1" none none 0).1
          = .created (jwtSign 1 "a" 7 0) (jwtSign 1 "r" 30 0)
              ⟨1, "M", "m@x.com", .school_admin, none⟩) :=
  ⟨rfl,
    (c10_register_accepts_role_from_body ⟨"a", "r", 7, 30, none, none⟩
      ⟨[], [], [], []⟩ 1 2 "M" "m@x.com" "secret1" 0 rfl).1,
    (c10_register_accepts_role_from_body ⟨"a", "r", 7, 30, none, none⟩
      ⟨[], [], [], []⟩ 1 2 "M" "m@x.com" "secret1" 0 rfl).2⟩

/-- C6: the login failure answer when the email resolves to an active
canonical user whose password mismatches is the very same response value
as when the email is found in no store at all, so responses do not
distinguish a nonexistent account from a wrong password. -/
theorem c6_uniform_invalid_credentials (env : Env) (db1 db2 : Db)
    (email password : String) (now salt freshId : Nat) (u : User)
    (henv : envSuperAdminMatch env email password = false)
    (hfound : db1.users.find? (fun v => v.email == email) = some u)
    (hactive : u.isActive = true)
    (hmismatch : bcryptCompare password u.password = false)
    (hnone : db2.users.find? (fun v => v.email == email) = none)
    (hadm : db2.admins.find? (fun r => r.email == email && !r.isDeleted) = none)
    (hsch : db2.schoolAdmins.find? (fun r => r.email == email && !r.isDeleted)
        = none) :
    (login env db1 email password now salt freshId).1
        = (login env db2 email password now salt freshId).1
      ∧ (login env db1 email password now salt freshId).1
        = .fail ⟨401, false, "Invalid credentials"⟩ := by
  constructor <;>
    simp [login, henv, hfound, hactive, hmismatch, hnone, hadm, hsch]

def c6Env : Env := ⟨"acc-secret", "ref-secret", 7, 30, none, none⟩

def c6User : User :=
  ⟨1, "A", "a@x.com", bcryptHash 4 "rightpw", .school_admin, none, true, none, 0⟩

def c6Db1 : Db := ⟨[c6User], [], [], []⟩

/-- Witness for C6: wrong password for `a@x.com` against a store holding
that account, versus the same request against empty stores. -/
theorem c6_uniform_invalid_credentials_witness :
    envSuperAdminMatch c6Env "a@x.com" "wrongpw" = false ∧
      c6User.isActive = true ∧
      bcryptCompare "wrongpw" c6User.password = false ∧
      ((login c6Env c6Db1 "a@x.com" "wrongpw" 1 2 3).1
          = (login c6Env ⟨[], [], [], []⟩ "a@x.com" "wrongpw" 1 2 3).1
        ∧ (login c6Env c6Db1 "a@x.com" "wrongpw" 1 2 3).1
          = .fail ⟨401, false, "Invalid credentials"⟩) :=
  ⟨rfl, rfl, by decide,
    c6_uniform_invalid_credentials c6Env c6Db1 ⟨[], [], [], []⟩ "a@x.com"
      "wrongpw" 1 2 3 c6User rfl rfl rfl (by decide) rfl rfl rfl⟩

def c7Env : Env := ⟨"acc-secret", "ref-secret", 7, 30, none, none⟩

def c7Alice : User :=
  ⟨1, "Alice", "a@x.com", bcryptHash 3 "secret1", .school_admin, none, true,
    none, 0⟩

def c7AdminRec : LegacyRecord := ⟨some "Boss", "b@y.com", bcryptHash 2 "pw1", false⟩

def c7Db : Db := ⟨[c7Alice], [c7AdminRec], [], []⟩

/-- C7 counterexample: for a registration targeting the legacy `admins`
store with an email that is taken in the canonical store (but not in
`admins`), the handler does not answer the 400 email-taken error the
claim states — the canonical store is never checked on this path, the
unique index rejects the insert, and the `catch` answers
`500 Server error` (the stores are left unchanged). -/
theorem c7_counterexample_admins_target_skips_canonical_check :
    register c7Env c7Db 2 5 "Mallory" "a@x.com" "secret2" none (some .admins) 0
        = (.fail ⟨500, false, "Server error"⟩, c7Db)
      ∧ RegisterOut.fail ⟨500, false, "Server error"⟩
        ≠ .fail ⟨400, false, "Email already registered"⟩ := by
  constructor
  · rfl
  · decide

/-- C7 amended: registration with a taken email creates no record and
fails, but the error depends on the target store: with the default
`users` target a canonical duplicate is answered with the 400
email-taken error; with the `admins` target only a duplicate in the
`admins` store is answered 400, while a canonical-only duplicate
surfaces as a 500 server error from the unique index.  In every case
both stores are left unchanged. -/
theorem c7_register_email_uniqueness (env : Env) (db : Db) (freshId salt : Nat)
    (name email password : String) (roleOpt : Option Role) (now : Nat) :
    (∀ u, db.users.find? (fun v => v.email == email) = some u →
        register env db freshId salt name email password roleOpt none now
          = (.fail ⟨400, false, "Email already registered"⟩, db))
      ∧ (∀ a, db.admins.find? (fun r => r.email == email) = some a →
        register env db freshId salt name email password roleOpt
            (some .admins) now
          = (.fail ⟨400, false, "Email already registered (admins)"⟩, db))
      ∧ (db.admins.find? (fun r => r.email == email) = none →
        ∀ u, db.users.find? (fun v => v.email == email) = some u →
        register env db freshId salt name email password roleOpt
            (some .admins) now
          = (.fail ⟨500, false, "Server error"⟩, db)) := by
  refine ⟨fun u hu => ?_, fun a ha => ?_, fun ha u hu => ?_⟩
  · simp [register, hu]
  · simp [register, ha]
  · simp [register, userCreate, ha, hu]

/-- Witness for C7 (amended): the three taken-email shapes at concrete
stores (canonical duplicate under the default target, `admins` duplicate
under the `admins` target, canonical-only duplicate under the `admins`
target). -/
theorem c7_register_email_uniqueness_witness :
    (register c7Env c7Db 2 5 "Mallory" "a@x.com" "secret2" none none 0
        = (.fail ⟨400, false, "Email already registered"⟩, c7Db))
      ∧ (register c7Env c7Db 2 5 "Mallory" "b@y.com" "secret2" none
            (some .admins) 0
          = (.fail ⟨400, false, "Email already registered (admins)"⟩, c7Db))
      ∧ (register c7Env c7Db 2 5 "Mallory" "a@x.com" "secret2" none
            (some .admins) 0
          = (.fail ⟨500, false, "Server error"⟩, c7Db)) :=
  ⟨(c7_register_email_uniqueness c7Env c7Db 2 5 "Mallory" "a@x.com" "secret2"
      none 0).1 c7Alice rfl,
    (c7_register_email_uniqueness c7Env c7Db 2 5 "Mallory" "b@y.com" "secret2"
      none 0).2.1 c7AdminRec rfl,
    (c7_register_email_uniqueness c7Env c7Db 2 5 "Mallory" "a@x.com" "secret2"
      none 0).2.2 rfl c7Alice rfl⟩

def c8User : User :=
  ⟨1, "A", "a@x.com", bcryptHash 0 "secret1", .school_admin, some 10, true,
    none, 0⟩

def c8Db : Db := ⟨[c8User], [], [], [⟨10, "Old School", "CBSE", "active"⟩]⟩

/-- C8 counterexample: a user already onboarded to school 10 runs
onboarding again; the handler silently overwrites `schoolId` with the
freshly created school 11 — `tenantId` is not set-at-most-once. -/
theorem c8_counterexample_onboarding_overwrites :
    c8User.schoolId = some 10
      ∧ (onboarding c8Db c8User 11 "New School" "CBSE" "A").1
        = .ok ⟨1, "A", "a@x.com", .school_admin, some 11⟩
      ∧ ((onboarding c8Db c8User 11 "New School" "CBSE" "A").2).users
        = [{ c8User with schoolId := some 11 }] :=
  ⟨rfl, rfl, rfl⟩

/-- C8 amended: each onboarding call unconditionally assigns the freshly
created school's id as the user's `schoolId`, overwriting any previous
assignment (no explicit super-admin reset is needed; the handler never
reads the old value). -/
theorem c8_onboarding_always_assigns_fresh_school (db : Db) (u : User)
    (fresh : Nat) (schoolName board adminName : String)
    (hname : db.schools.find? (fun s => s.name == schoolName) = none)
    (hfind : db.users.find? (fun v => v.id == u.id) = some u) :
    (onboarding db u fresh schoolName board adminName).1
        = .ok ⟨u.id,
               if (jsTrim adminName).length > 0 then jsTrim adminName
               else u.name,
               u.email, u.role, some fresh⟩ := by
  simp [onboarding, schoolCreate, hname, hfind, userView]

/-- Witness for C8 (amended) at the concrete re-onboarding input of the
counterexample's store. -/
theorem c8_onboarding_always_assigns_fresh_school_witness :
    c8Db.schools.find? (fun s => s.name == "New School") = none
      ∧ c8Db.users.find? (fun v => v.id == c8User.id) = some c8User
      ∧ (onboarding c8Db c8User 11 "New School" "CBSE" "A").1
          = .ok ⟨c8User.id,
                 if (jsTrim "A").length > 0 then jsTrim "A" else c8User.name,
                 c8User.email, c8User.role, some 11⟩ :=
  ⟨rfl, rfl,
    c8_onboarding_always_assigns_fresh_school c8Db c8User 11 "New School"
      "CBSE" "A" rfl rfl⟩

/-- C4: after a successful refresh rotation the previously stored
refresh token is invalidated — re-presenting it fails with the 401
invalid-refresh response — and, in general, a refresh succeeds only when
the presented token exactly equals the currently stored one. -/
theorem c4_refresh_rotation_single_session (env : Env) (db : Db) (u : User)
    (t0 : Token) (n2 n3 : Nat)
    (hfind : db.users.find? (fun v => v.id == t0.id) = some u)
    (hstored : u.refreshToken = some t0)
    (hsec : t0.secret = env.jwtRefreshSecret)
    (hexp2 : n2 < t0.exp) (hexp3 : n3 < t0.exp)
    (hiat : t0.iat ≠ n2) :
    (refresh env db t0 n2
        = (.ok (getSignedJwtToken env u n2) (getRefreshToken env u n2),
           saveUser db { u with refreshToken := some (getRefreshToken env u n2) })
      ∧ (refresh env
            (saveUser db
              { u with refreshToken := some (getRefreshToken env u n2) })
            t0 n3).1
        = .fail ⟨401, false, "Invalid refresh token"⟩)
    ∧ ∀ (db' : Db) (rt tok rt' : Token) (m : Nat) (db2 : Db),
        refresh env db' rt m = (.ok tok rt', db2) →
        ∃ v, db'.users.find? (fun w => w.id == rt.id) = some v
          ∧ v.refreshToken = some rt := by
  have h2 : ¬ (t0.exp ≤ n2) := by omega
  have h3 : ¬ (t0.exp ≤ n3) := by omega
  have hne : getRefreshToken env u n2 ≠ t0 := by
    intro h
    exact hiat (by rw [← h]; rfl)
  refine ⟨⟨?_, ?_⟩, ?_⟩
  · simp [refresh, jwtVerify, hsec, h2, hfind, hstored]
  · have hfind2 := find?_map_replace db.users u
      { u with refreshToken := some (getRefreshToken env u n2) } t0.id u.id
      hfind rfl rfl
    rw [List.find?_map] at hfind2
    simp only [beq_iff_eq] at hfind2
    simp [refresh, saveUser, jwtVerify, hsec, h3, hne, hfind2]
  · intro db' rt tok rt' m db2 hok
    cases hv : jwtVerify rt env.jwtRefreshSecret m with
    | error e =>
      cases e <;> simp only [refresh, hv] at hok <;> simp at hok
    | ok uid =>
      have huid : uid = rt.id := jwtVerify_ok_id rt env.jwtRefreshSecret m uid hv
      simp only [refresh, hv] at hok
      cases hf : db'.users.find? (fun v => v.id == uid) with
      | none => simp [hf] at hok
      | some v =>
        simp only [hf] at hok
        by_cases hrt : v.refreshToken = some rt
        · rw [huid] at hf
          exact ⟨v, hf, hrt⟩
        · simp [hrt] at hok

def c4Env : Env := ⟨"acc-secret", "ref-secret", 7, 30, none, none⟩

def c4T0 : Token := jwtSign 1 "ref-secret" 30 0

def c4User : User :=
  ⟨1, "A", "a@x.com", bcryptHash 0 "pw1234", .super_admin, none, true,
    some c4T0, 0⟩

def c4Db : Db := ⟨[c4User], [], [], []⟩

/-- Witness for C4: rotation at time 5 of a refresh token issued at
time 0, replayed at time 6. -/
theorem c4_refresh_rotation_single_session_witness :
    c4Db.users.find? (fun v => v.id == c4T0.id) = some c4User
      ∧ c4User.refreshToken = some c4T0
      ∧ c4T0.secret = c4Env.jwtRefreshSecret
      ∧ 5 < c4T0.exp ∧ 6 < c4T0.exp ∧ c4T0.iat ≠ 5
      ∧ ((refresh c4Env c4Db c4T0 5
            = (.ok (getSignedJwtToken c4Env c4User 5)
                   (getRefreshToken c4Env c4User 5),
               saveUser c4Db
                 { c4User with
                    refreshToken := some (getRefreshToken c4Env c4User 5) })
          ∧ (refresh c4Env
                (saveUser c4Db
                  { c4User with
                     refreshToken := some (getRefreshToken c4Env c4User 5) })
                c4T0 6).1
            = .fail ⟨401, false, "Invalid refresh token"⟩)
        ∧ ∀ (db' : Db) (rt tok rt' : Token) (m : Nat) (db2 : Db),
            refresh c4Env db' rt m = (.ok tok rt', db2) →
            ∃ v, db'.users.find? (fun w => w.id == rt.id) = some v
              ∧ v.refreshToken = some rt) :=
  ⟨rfl, rfl, rfl, by decide, by decide, by decide,
    c4_refresh_rotation_single_session c4Env c4Db c4User c4T0 5 6 rfl rfl rfl
      (by decide) (by decide) (by decide)⟩

/-- C5: legacy-store login materialization.  With no canonical record
for the email (and the env-super-admin path not engaged), the `admins`
store is probed first: a non-deleted `admins` record whose hash verifies
the password is materialized as a canonical identity that copies the
record's name (defaulting to `"Admin"`), email, and stored hash verbatim
(no re-hash: the stored `password` is structurally the legacy hash),
with role `super_admin` and `isActive = true` — regardless of the
`school_admins` store's contents, which captures the fixed priority
order.  Only when the `admins` store has no matching record is
`school_admins` consulted, materializing the same way with role
`school_admin` (name defaulting to `"School Admin"`).  Soft-deleted
records are skipped by the `isDeleted ≠ true` lookup filter in both
probes. -/
theorem c5_legacy_login_materialization (env : Env) (db : Db)
    (email password : String) (now salt freshId : Nat)
    (henv : envSuperAdminMatch env email password = false)
    (hcanon : db.users.find? (fun v => v.email == email) = none)
    (hfreshid : ∀ v ∈ db.users, v.id ≠ freshId) :
    (∀ a, db.admins.find? (fun r => r.email == email && !r.isDeleted) = some a →
      bcryptCompare password a.password = true →
      login env db email password now salt freshId
        = (.ok (jwtSign freshId env.jwtSecret env.jwtExpiresIn now)
               (jwtSign freshId env.jwtRefreshSecret env.jwtRefreshExpiresIn now)
               ⟨freshId, a.name.getD "Admin", a.email, .super_admin, none⟩,
           { db with users := db.users ++
               [⟨freshId, a.name.getD "Admin", a.email, a.password, .super_admin,
                 none, true,
                 some (jwtSign freshId env.jwtRefreshSecret
                   env.jwtRefreshExpiresIn now),
                 now⟩] }))
    ∧ (db.admins.find? (fun r => r.email == email && !r.isDeleted) = none →
      ∀ a, db.schoolAdmins.find? (fun r => r.email == email && !r.isDeleted)
          = some a →
      bcryptCompare password a.password = true →
      login env db email password now salt freshId
        = (.ok (jwtSign freshId env.jwtSecret env.jwtExpiresIn now)
               (jwtSign freshId env.jwtRefreshSecret env.jwtRefreshExpiresIn now)
               ⟨freshId, a.name.getD "School Admin", a.email, .school_admin, none⟩,
           { db with users := db.users ++
               [⟨freshId, a.name.getD "School Admin", a.email, a.password,
                 .school_admin, none, true,
                 some (jwtSign freshId env.jwtRefreshSecret
                   env.jwtRefreshExpiresIn now),
                 now⟩] })) := by
  have hmap : ∀ (w : User),
      db.users.map (fun v => if v.id == freshId then w else v) = db.users :=
    fun w => map_replace_fresh db.users freshId w hfreshid
  constructor
  · intro a ha hcmp
    have hmail : a.email = email := by
      have := List.find?_some ha
      simp [Bool.and_eq_true] at this
      exact this.1
    subst hmail
    simp [login, loginFinish, upsertUserByEmail, saveUser, getSignedJwtToken,
      getRefreshToken, userView, henv, hcanon, ha, hcmp, List.map_append, hmap]
    refine (List.map_congr_left fun v hv => ?_).trans (List.map_id' db.users)
    simp [Function.comp, hfreshid v hv]
  · intro hadm a ha hcmp
    have hmail : a.email = email := by
      have := List.find?_some ha
      simp [Bool.and_eq_true] at this
      exact this.1
    subst hmail
    simp [login, loginFinish, upsertUserByEmail, saveUser, getSignedJwtToken,
      getRefreshToken, userView, henv, hcanon, hadm, ha, hcmp,
      List.map_append, hmap]
    refine (List.map_congr_left fun v hv => ?_).trans (List.map_id' db.users)
    simp [Function.comp, hfreshid v hv]

def c5Env : Env := ⟨"acc-secret", "ref-secret", 7, 30, none, none⟩

def c5DeletedAdmin : LegacyRecord :=
  ⟨some "Del", "b@y.com", bcryptHash 1 "pw1234", true⟩

def c5Boss : LegacyRecord := ⟨some "Boss", "b@y.com", bcryptHash 2 "pw1234", false⟩

def c5SchoolRival : LegacyRecord :=
  ⟨some "SA", "b@y.com", bcryptHash 9 "pw1234", false⟩

def c5Db : Db := ⟨[], [c5DeletedAdmin, c5Boss], [c5SchoolRival], []⟩

def c5SchRec : LegacyRecord := ⟨none, "c@z.com", bcryptHash 5 "pw9999", false⟩

def c5Db2 : Db := ⟨[], [], [c5SchRec], []⟩

/-- Witness for C5: (i) admins-store materialization of `b@y.com`,
skipping a soft-deleted admins record with the same email and winning
over a matching `school_admins` record (fixed priority); (ii)
`school_admins` materialization of `c@z.com` with the name default. -/
theorem c5_legacy_login_materialization_witness :
    envSuperAdminMatch c5Env "b@y.com" "pw1234" = false
      ∧ c5Db.users.find? (fun v => v.email == "b@y.com") = none
      ∧ c5Db.admins.find? (fun r => r.email == "b@y.com" && !r.isDeleted)
          = some c5Boss
      ∧ bcryptCompare "pw1234" c5Boss.password = true
      ∧ login c5Env c5Db "b@y.com" "pw1234" 3 4 1
        = (.ok (jwtSign 1 c5Env.jwtSecret c5Env.jwtExpiresIn 3)
               (jwtSign 1 c5Env.jwtRefreshSecret c5Env.jwtRefreshExpiresIn 3)
               ⟨1, c5Boss.name.getD "Admin", c5Boss.email, .super_admin, none⟩,
           { c5Db with users := c5Db.users ++
               [⟨1, c5Boss.name.getD "Admin", c5Boss.email, c5Boss.password,
                 .super_admin, none, true,
                 some (jwtSign 1 c5Env.jwtRefreshSecret
                   c5Env.jwtRefreshExpiresIn 3),
                 3⟩] })
      ∧ login c5Env c5Db2 "c@z.com" "pw9999" 3 4 1
        = (.ok (jwtSign 1 c5Env.jwtSecret c5Env.jwtExpiresIn 3)
               (jwtSign 1 c5Env.jwtRefreshSecret c5Env.jwtRefreshExpiresIn 3)
               ⟨1, c5SchRec.name.getD "School Admin", c5SchRec.email,
                .school_admin, none⟩,
           { c5Db2 with users := c5Db2.users ++
               [⟨1, c5SchRec.name.getD "School Admin", c5SchRec.email,
                 c5SchRec.password, .school_admin, none, true,
                 some (jwtSign 1 c5Env.jwtRefreshSecret
                   c5Env.jwtRefreshExpiresIn 3),
                 3⟩] }) :=
  ⟨rfl, rfl, rfl, rfl,
    (c5_legacy_login_materialization c5Env c5Db "b@y.com" "pw1234" 3 4 1 rfl rfl
      (by simp [c5Db])).1 c5Boss rfl rfl,
    (c5_legacy_login_materialization c5Env c5Db2 "c@z.com" "pw9999" 3 4 1 rfl rfl
      (by simp [c5Db2])).2 rfl c5SchRec rfl rfl⟩

end StudentPanel
